import Mathlib

/-!
Verification of the record-to-page rendering pipeline of `src/update_papers.py`.

Strings are modelled by Lean `String` (a list of characters), and the Python
string primitives used by the script (`strip`, `lower`, `split`, `splitlines`,
`join`, `startswith`, `int(...)`, `json.dumps`, `html.escape`) are given
executable models below.  Records are a fixed-field rendering of the Python
string-keyed dict: every field the script reads is an `Option String`
(`none` = key absent).  `dict.get(k, d)` is presence-based (`Option.getD`),
while the script's `get_field` helper and Python truthiness treat an empty
string like an absent value (`fieldVal`).
-/

set_option maxRecDepth 8000

namespace UpdatePapers

/-- Python whitespace test for `strip` / `split()` (ASCII whitespace). -/
def isWs (c : Char) : Bool := c.isWhitespace

/-- Model of Python `str.strip()` on the character list. -/
def trimList (l : List Char) : List Char :=
  ((l.dropWhile isWs).reverse.dropWhile isWs).reverse

/-- Model of Python `str.strip()`. -/
def pyTrim (s : String) : String := ⟨trimList s.data⟩

/-- Model of Python `str.lstrip()`. -/
def pyLstrip (s : String) : String := ⟨s.data.dropWhile isWs⟩

/-- Model of Python `str.rstrip()`. -/
def pyRstrip (s : String) : String := ⟨(s.data.reverse.dropWhile isWs).reverse⟩

/-- Model of Python `str.lstrip("/")`. -/
def stripLeadingSlashes (s : String) : String := ⟨s.data.dropWhile (· = '/')⟩

/-- Model of Python `str.rstrip(",")`. -/
def rstripCommas (s : String) : String := ⟨(s.data.reverse.dropWhile (· = ',')).reverse⟩

/-- Model of Python `str.lstrip("\n")`. -/
def lstripNewlines (s : String) : String := ⟨s.data.dropWhile (· = '\n')⟩

/-- Model of Python `str.lower()` (ASCII case folding, which is all the script needs). -/
def pyLower (s : String) : String := ⟨s.data.map Char.toLower⟩

/-- Model of the Python slice `s[:n]` (first `n` code points). -/
def strTake (s : String) (n : Nat) : String := ⟨s.data.take n⟩

/-- Model of Python `s.startswith(p)`. -/
def startsWithStr (s p : String) : Bool := p.data.isPrefixOf s.data

/-- Model of Python `str.replace(a, b)` for single characters. -/
def replaceChar (a b : Char) (s : String) : String :=
  ⟨s.data.map (fun c => if c = a then b else c)⟩

/-- Worker for `pySplit`; the fuel is an upper bound on the number of steps,
`length input + 1` always suffices for a non-empty separator. -/
def pySplitAux (sep : List Char) : Nat → List Char → List Char → List (List Char)
  | 0, xs, acc => [acc.reverse ++ xs]
  | _ + 1, [], acc => [acc.reverse]
  | n + 1, x :: xs, acc =>
    if sep.isPrefixOf (x :: xs) then
      acc.reverse :: pySplitAux sep n (List.drop sep.length (x :: xs)) []
    else
      pySplitAux sep n xs (x :: acc)

/-- Model of Python `s.split(sep)` for a non-empty separator: non-overlapping
left-to-right splitting, keeping empty parts (`"".split(sep) = [""]`). -/
def pySplit (s sep : String) : List String :=
  (pySplitAux sep.data (s.data.length + 1) s.data []).map (⟨·⟩)

/-- Worker for `pySplitOnce?`. -/
def pySplitOnceAux (sep : List Char) : Nat → List Char → List Char →
    Option (List Char × List Char)
  | 0, _, _ => none
  | _ + 1, [], _ => none
  | n + 1, x :: xs, acc =>
    if sep.isPrefixOf (x :: xs) then
      some (acc.reverse, List.drop sep.length (x :: xs))
    else
      pySplitOnceAux sep n xs (x :: acc)

/-- Model of Python `s.split(sep, 1)`: `some (before, after)` at the first
occurrence of `sep`, `none` when `sep` does not occur.  `isSome` therefore
models Python's `sep in s` for a non-empty `sep`. -/
def pySplitOnce? (s sep : String) : Option (String × String) :=
  (pySplitOnceAux sep.data (s.data.length + 1) s.data []).map
    (fun p => (⟨p.1⟩, ⟨p.2⟩))

/-- Model of Python `sub in s` (substring containment, non-empty `sub`). -/
def strContains (s sub : String) : Bool := (pySplitOnce? s sub).isSome

/-- Model of Python `c in s` for a single character. -/
def strContainsChar (s : String) (c : Char) : Bool := s.data.contains c

/-- Worker for `pySplitWs`. -/
def splitWsAux : List Char → List Char → List (List Char)
  | [], acc => if acc.isEmpty then [] else [acc.reverse]
  | c :: rest, acc =>
    if isWs c then
      if acc.isEmpty then splitWsAux rest [] else acc.reverse :: splitWsAux rest []
    else
      splitWsAux rest (c :: acc)

/-- Model of Python `s.split()` (no argument): split on whitespace runs,
discarding empty parts. -/
def pySplitWs (s : String) : List String := (splitWsAux s.data []).map (⟨·⟩)

/-- Worker for `pySplitLines`. -/
def splitLinesAux : List Char → List Char → List (List Char)
  | [], acc => if acc.isEmpty then [] else [acc.reverse]
  | '\r' :: '\n' :: rest, acc => acc.reverse :: splitLinesAux rest []
  | '\n' :: rest, acc => acc.reverse :: splitLinesAux rest []
  | '\r' :: rest, acc => acc.reverse :: splitLinesAux rest []
  | c :: rest, acc => splitLinesAux rest (c :: acc)

/-- Model of Python `s.splitlines()` for the newline conventions
`"\n"`, `"\r"`, `"\r\n"`. -/
def pySplitLines (s : String) : List String := (splitLinesAux s.data []).map (⟨·⟩)

/-- Model of Python `sep.join(parts)`. -/
def joinSep (sep : String) : List String → String
  | [] => ""
  | [x] => x
  | x :: y :: ys => x ++ sep ++ joinSep sep (y :: ys)

/-- Numeric value of a list of decimal digits. -/
def natFromDigits (l : List Char) : Nat :=
  l.foldl (fun n c => n * 10 + (c.toNat - 48)) 0

/-- Model of Python `int(s)` on the strings this script feeds it: surrounding
whitespace then an optional sign then decimal digits; anything else raises
`ValueError`, modelled as `none`. -/
def pyInt? (s : String) : Option Int :=
  let t := trimList s.data
  match t with
  | [] => none
  | c :: rest =>
    let signed : Int × List Char :=
      if c = '-' then (-1, rest) else if c = '+' then (1, rest) else (1, t)
    if signed.2 ≠ [] ∧ signed.2.all Char.isDigit then
      some (signed.1 * (natFromDigits signed.2 : Int))
    else
      none

/-- One hexadecimal digit (lower case), for `jsonDumps` control-char escapes. -/
def hexDigit (n : Nat) : Char :=
  if n < 10 then Char.ofNat (48 + n) else Char.ofNat (87 + n)

/-- JSON escaping of one character, following `json.dumps` with
`ensure_ascii=False`. -/
def jsonEscapeChar (c : Char) : List Char :=
  if c = '"' then ['\\', '"']
  else if c = '\\' then ['\\', '\\']
  else if c = '\n' then ['\\', 'n']
  else if c = '\t' then ['\\', 't']
  else if c = '\r' then ['\\', 'r']
  else if c = Char.ofNat 8 then ['\\', 'b']
  else if c = Char.ofNat 12 then ['\\', 'f']
  else if c.toNat < 32 then
    ['\\', 'u', '0', '0', hexDigit (c.toNat / 16), hexDigit (c.toNat % 16)]
  else [c]

/-- Model of `json.dumps(s, ensure_ascii=False)` for a string. -/
def jsonDumps (s : String) : String :=
  ⟨'"' :: (s.data.flatMap jsonEscapeChar ++ ['"'])⟩

/-- Model of `json.dumps(l, ensure_ascii=False)` for a list of strings. -/
def jsonDumpsList (l : List String) : String :=
  "[" ++ joinSep ", " (l.map jsonDumps) ++ "]"

/-- Model of `html.escape(s, quote=True)`. -/
def htmlEscapeChar (c : Char) : List Char :=
  if c = '&' then "&amp;".data
  else if c = '<' then "&lt;".data
  else if c = '>' then "&gt;".data
  else if c = '"' then "&quot;".data
  else if c = '\'' then "&#x27;".data
  else [c]

/-- Model of `html.escape(s, quote=True)`. -/
def htmlEscape (s : String) : String := ⟨s.data.flatMap htmlEscapeChar⟩

/-- Render a Python boolean the way the YAML header does. -/
def boolStr (b : Bool) : String := if b then "true" else "false"

/-!  ## Data model

A bibliographic record: the string-keyed dict produced by the loader,
restricted to the keys `update_papers.py` reads.  `none` models an absent key.
The Lean field `id` models the lower-case `"id"` key, `journal_name` the
`"journal.name"` key and `author_an_orcid` the `"author+an:orcid"` key. -/
structure Record where
  ENTRYTYPE : Option String := none
  ID : Option String := none
  id : Option String := none
  citation_key : Option String := none
  colrev_id : Option String := none
  title : Option String := none
  author : Option String := none
  year : Option String := none
  journal : Option String := none
  journal_name : Option String := none
  booktitle : Option String := none
  outlet : Option String := none
  volume : Option String := none
  number : Option String := none
  pages : Option String := none
  doi : Option String := none
  url : Option String := none
  abstract : Option String := none
  keywords : Option String := none
  oa_status : Option String := none
  fulltext_oa : Option String := none
  author_copy_url : Option String := none
  author_copy_file : Option String := none
  author_an_orcid : Option String := none
  summary_url : Option String := none
  appendix_url : Option String := none
  dataset_url : Option String := none
  dataset_doi : Option String := none
  code_url : Option String := none

/-- Python truthiness of a field: an absent key and an empty string are both
falsy; `fieldVal v = some s` exactly when the key is present with a non-empty
value `s`. -/
def fieldVal : Option String → Option String
  | some s => if s = "" then none else some s
  | none => none

/-- Model of `get_field(record, n)` with the default `""`: the value when the
key is present and truthy, else `""`. -/
def gf (v : Option String) : String := (fieldVal v).getD ""

/-- Model of `get_field(record, n1, n2)` (first truthy value, default `""`). -/
def gf2 (a b : Option String) : String := (fieldVal a <|> fieldVal b).getD ""

/-- Model of `get_field(record, n1, n2, n3)`. -/
def gf3 (a b c : Option String) : String :=
  (fieldVal a <|> fieldVal b <|> fieldVal c).getD ""

/-- Model of `record.get(k, d)`: presence-based, an empty present value is
returned as-is. -/
def getDflt (v : Option String) (d : String) : String := v.getD d

/-!  ## Citation formatters (`record_to_bibtex`, `record_to_ris`,
`format_apa_citation`), lines 102-318 of `update_papers.py`. -/

/-- `key = rec.get("ID") or rec.get("citation_key") or rec.get("colrev_id")`
in `record_to_bibtex`; `none` models a falsy result (which raises). -/
def bibKey? (rec : Record) : Option String :=
  fieldVal rec.ID <|> fieldVal rec.citation_key <|> fieldVal rec.colrev_id

/-- The `(field, value)` pairs of a record that survive the exclusion sets of
`record_to_bibtex` (`FIELDS_TO_STRIP_FOR_REFERENCES` plus
`ID`/`ENTRYTYPE`/`keywords`).  The Python dict's insertion order is not
observable from the source; it is modelled as this fixed order. -/
def bibFields (rec : Record) : List (String × Option String) :=
  [("author", rec.author), ("year", rec.year), ("title", rec.title),
   ("journal", rec.journal), ("journal.name", rec.journal_name),
   ("booktitle", rec.booktitle), ("outlet", rec.outlet),
   ("volume", rec.volume), ("number", rec.number), ("pages", rec.pages),
   ("doi", rec.doi), ("url", rec.url), ("abstract", rec.abstract),
   ("id", rec.id)]

/-- Python `f"{field:<10}"`: pad the field name to width 10 with spaces. -/
def padTo10 (f : String) : String :=
  f ++ ⟨List.replicate (10 - f.data.length) ' '⟩

/-- `str(value).replace("\n", " ").strip()` applied to a BibTeX field value. -/
def bibCollapse (v : String) : String := pyTrim (replaceChar '\n' ' ' v)

/-- One `  field      = {value},` line of the reconstructed BibTeX entry. -/
def bibFieldLine (f v : String) : String :=
  "  " ++ padTo10 f ++ " = \x7b" ++ bibCollapse v ++ "\x7d,"

/-- Drop the trailing comma of the last field line
(`field_lines[-1] = field_lines[-1].rstrip(",")`). -/
def dropLastComma : List String → List String
  | [] => []
  | [x] => [rstripCommas x]
  | x :: y :: ys => x :: dropLastComma (y :: ys)

/-- Model of `record_to_bibtex` (lines 102-128): `none` models the
`ValueError` raised when the record has no citation key. -/
def record_to_bibtex? (rec : Record) : Option String :=
  match bibKey? rec with
  | none => none
  | some key =>
    let entrytype := getDflt rec.ENTRYTYPE "article"
    let field_lines := (bibFields rec).filterMap (fun fv =>
      match fv.2 with
      | none => none
      | some v => if v = "" then none else some (bibFieldLine fv.1 v))
    some (joinSep "\n"
      (("@" ++ entrytype ++ "\x7b" ++ key ++ ",") :: dropLastComma field_lines
        ++ ["\x7d"]))

/-- The RIS `TY` tag for an entry type (lines 133-144). -/
def risTypeOf (rec : Record) : String :=
  let et := pyLower (getDflt rec.ENTRYTYPE "article")
  if et = "article" then "JOUR"
  else if et = "inproceedings" then "CONF"
  else if et = "proceedings" then "CONF"
  else if et = "conference" then "CONF"
  else if et = "book" then "BOOK"
  else if et = "phdthesis" then "THES"
  else if et = "mastersthesis" then "THES"
  else if et = "techreport" then "RPRT"
  else "GEN"

/-- The author entries of the RIS export: the `author` field split on
`" and "`, each entry stripped, empty entries skipped (lines 149-154). -/
def risAuthorEntries (rec : Record) : List String :=
  let authors := pyTrim (getDflt rec.author "")
  if authors ≠ "" then ((pySplit authors " and ").map pyTrim).filter (· ≠ "")
  else []

/-- The `SP`/`EP` lines of the RIS export (lines 175-182): a pages value
containing `"--"` is split once into start and end, anything else becomes a
single `SP` line. -/
def risPagesLines (rec : Record) : List String :=
  match fieldVal rec.pages with
  | none => []
  | some p =>
    match pySplitOnce? p "--" with
    | some se => ["SP  - " ++ pyTrim se.1, "EP  - " ++ pyTrim se.2]
    | none => ["SP  - " ++ pyTrim p]

/-- One optional tagged line of the RIS export: emitted exactly when the
(truthy) field value is present, mirror of the `if rec.get(f): lines.append`
pattern. -/
def risOptLine (tag : String) (o : Option String) : List String :=
  match o with
  | some x => [tag ++ x]
  | none => []

/-- Model of `record_to_ris` (lines 131-194) as the list of emitted lines,
transcribed in the order of the Python appends. -/
def risLines (rec : Record) : List String :=
  let lines := ["TY  - " ++ risTypeOf rec]
  let lines := lines ++ (risAuthorEntries rec).map (fun a => "AU  - " ++ a)
  let lines := lines ++ risOptLine "TI  - " (fieldVal rec.title)
  let lines := lines ++
    risOptLine "T2  - " (fieldVal rec.journal <|> fieldVal rec.booktitle)
  let lines := lines ++ (let y := pyTrim (getDflt rec.year "");
    if y ≠ "" then ["PY  - " ++ y] else [])
  let lines := lines ++ risOptLine "VL  - " (fieldVal rec.volume)
  let lines := lines ++ risOptLine "IS  - " (fieldVal rec.number)
  let lines := lines ++ risPagesLines rec
  let lines := lines ++ risOptLine "DO  - " (fieldVal rec.doi)
  let lines := lines ++ risOptLine "UR  - " (fieldVal rec.url)
  lines ++ ["ER  - "]

/-- Model of `record_to_ris`: the lines joined with newlines. -/
def record_to_ris (rec : Record) : String := joinSep "\n" (risLines rec)

/-- The tail of `_format_author_name_for_apa` (lines 217-220): build the
initials from the given names and glue them to the last name. -/
def apaLastWithInitials (last : String) (given_parts : List String) : String :=
  let initials := joinSep " "
    ((given_parts.filter (· ≠ "")).map
      (fun p => (⟨[p.data.headD ' ']⟩ : String) ++ "."))
  if initials ≠ "" then last ++ ", " ++ initials else last

/-- Model of `_format_author_name_for_apa` (lines 197-220): convert
`"Last, First Middle"` (or `"First Middle Last"`) to `"Last, F. M."`.
A stripped non-empty string always whitespace-splits into at least one part,
so the `[]` branch of the no-comma case is unreachable; it returns the
author unchanged. -/
def formatAuthorNameApa (author0 : String) : String :=
  let author := pyTrim author0
  if author = "" then ""
  else
    match pySplitOnce? author "," with
    | some lg =>
      apaLastWithInitials (pyTrim lg.1) ((pySplitWs (pyTrim lg.2)).filter (· ≠ ""))
    | none =>
      match pySplitWs author with
      | [] => author
      | [p] => p
      | ps => apaLastWithInitials (ps.getLastD "") ps.dropLast

/-- Model of `_format_authors_apa` (lines 223-239): split the raw author field
on `" and "` and join the per-author APA names with the one/two/many rule. -/
def formatAuthorsApa (authors_raw : String) : String :=
  if authors_raw = "" then ""
  else
    let authors := ((pySplit authors_raw " and ").map pyTrim).filter (· ≠ "")
    let formatted := authors.map formatAuthorNameApa
    match formatted with
    | [] => ""
    | [a] => a
    | [a, b] => a ++ " & " ++ b
    | l => joinSep ", " l.dropLast ++ ", & " ++ l.getLastD ""

/-- The `(Year).` / `(n.d.).` component of the APA citation (lines 253-257). -/
def apaYearStr (rec : Record) : String :=
  let year := pyTrim (getDflt rec.year "")
  if year ≠ "" then "(" ++ year ++ ")." else "(n.d.)."

/-- The `*Outlet* volume(issue), pages.` component (lines 261-290). -/
def apaOutletStr (rec : Record) : String :=
  let journal := pyTrim (getDflt rec.journal "")
  let booktitle := pyTrim (getDflt rec.booktitle "")
  let outlet := if journal ≠ "" then journal else booktitle
  let volume := pyTrim (getDflt rec.volume "")
  let number := pyTrim (getDflt rec.number "")
  let pages := pyTrim (getDflt rec.pages "")
  let outlet_parts : List String :=
    if outlet ≠ "" then ["*" ++ outlet ++ "*"] else []
  let vip := if volume ≠ "" then volume else ""
  let vip := if number ≠ "" then vip ++ "(" ++ number ++ ")" else vip
  let vip :=
    if pages ≠ "" then (if vip ≠ "" then vip ++ ", " ++ pages else pages)
    else vip
  let outlet_parts := outlet_parts ++ (if vip ≠ "" then [vip] else [])
  if outlet_parts ≠ [] then joinSep " " outlet_parts ++ "." else ""

/-- The DOI/URL link component (lines 293-305): a DOI is preferred, and turned
into a resolver URL when it is not already an `http` link. -/
def apaLinkStr (rec : Record) : String :=
  let doi_raw := pyTrim (getDflt rec.doi "")
  let doi :=
    if doi_raw ≠ "" ∧ ¬ startsWithStr doi_raw "http" then
      "https://doi.org/" ++ doi_raw
    else doi_raw
  let url := pyTrim (getDflt rec.url "")
  if doi ≠ "" then doi else if url ≠ "" then url else ""

/-- The `parts` list of `format_apa_citation` (lines 307-316): authors, year,
title, outlet and link components, each appended only when non-empty — except
the year component, which is appended unconditionally. -/
def apaParts (rec : Record) : List String :=
  let authors_str := formatAuthorsApa (pyTrim (getDflt rec.author ""))
  let title := pyTrim (getDflt rec.title "")
  (if authors_str ≠ "" then [authors_str] else [])
  ++ [apaYearStr rec]
  ++ (if title ≠ "" then [title ++ "."] else [])
  ++ (if apaOutletStr rec ≠ "" then [apaOutletStr rec] else [])
  ++ (if apaLinkStr rec ≠ "" then [apaLinkStr rec] else [])

/-- Model of `format_apa_citation` (lines 242-318): the non-empty parts
joined with spaces, stripped. -/
def format_apa_citation (rec : Record) : String :=
  pyTrim (joinSep " " ((apaParts rec).filter (· ≠ "")))

/-!  ## Page renderer: YAML front matter (`build_authors_metadata`,
`build_yaml_header`, lines 410-593).  `dt.date.today().year` is modelled as
the explicit `currentYear` parameter. -/

/-- One entry of the structured author list: a free-text name, optionally
paired with an ORCID identifier. -/
structure AuthorMeta where
  name : String
  orcid : Option String
deriving DecidableEq

/-- The author names of a record: `author` split on `" and "`, stripped,
empty entries dropped (lines 422-427). -/
def authorNamesOf (rec : Record) : List String :=
  let raw := pyTrim (gf rec.author)
  if raw = "" then []
  else ((pySplit raw " and ").map pyTrim).filter (· ≠ "")

/-- The positionally aligned ORCID list (lines 429-448): the
`author+an:orcid` field split on `";"` when it contains one, else on `","`
when it contains one, else taken whole; empty positions are kept as `none`
so that indices keep matching the authors. -/
def orcidListOf (rec : Record) : List (Option String) :=
  let raw := pyTrim (getDflt rec.author_an_orcid "")
  if raw = "" then []
  else
    let parts :=
      if strContainsChar raw ';' then (pySplit raw ";").map pyTrim
      else if strContainsChar raw ',' then (pySplit raw ",").map pyTrim
      else [pyTrim raw]
    parts.map (fun p => if p = "" then none else some p)

/-- Worker for `build_authors_metadata`: the author at overall position `i`
gets the ORCID at position `i` when it exists and is non-empty (lines
450-455; `List.getD i none` returns `none` both beyond the list's length and
at a kept empty placeholder, exactly like the Python guard). -/
def buildAuthorsAux (orcids : List (Option String)) : Nat → List String → List AuthorMeta
  | _, [] => []
  | i, n :: ns => ⟨n, orcids.getD i none⟩ :: buildAuthorsAux orcids (i + 1) ns

/-- Model of `build_authors_metadata` (lines 410-457). -/
def build_authors_metadata (rec : Record) : List AuthorMeta :=
  buildAuthorsAux (orcidListOf rec) 0 (authorNamesOf rec)

/-- `year_str` of the YAML header (line 483). -/
def yearStrOf (rec : Record) : String := pyTrim (gf rec.year)

/-- `year_int` of the YAML header (lines 486-491): `int(year_str[:4])`,
`none` on a `ValueError`. -/
def yearIntOf (rec : Record) : Option Int :=
  let ys := yearStrOf rec
  if ys ≠ "" then pyInt? (strTake ys 4) else none

/-- Model of `split_keywords` (lines 393-399). -/
def split_keywords (raw : String) : List String :=
  if raw = "" then []
  else ((pySplit (replaceChar ';' ',' raw) ",").map pyTrim).filter (· ≠ "")

/-- The stripped `fulltext_oa` field (line 508 / line 644). -/
def fulltextOaRaw (rec : Record) : String := pyTrim (gf rec.fulltext_oa)

/-- The stripped `author_copy_url` field (line 509 / line 631). -/
def authorCopyUrlS (rec : Record) : String := pyTrim (gf rec.author_copy_url)

/-- The stripped `author_copy_file` field (line 510 / line 632). -/
def authorCopyFileRaw (rec : Record) : String := pyTrim (gf rec.author_copy_file)

/-- `has_free_fulltext` (line 512): some OA full text or author copy is
available. -/
def hasFreeFulltext (rec : Record) : Bool :=
  (fulltextOaRaw rec != "") || (authorCopyUrlS rec != "") ||
    (authorCopyFileRaw rec != "")

/-- The `(self_archiving_possible_1y, self_archiving_possible_2y)` pair
(lines 516-525): both `false` unless there is no free full text and the year
parses; then the 1-year flag holds at age `≥ 1` but is overridden by the
2-year flag at age `≥ 2`. -/
def selfArchFlags (rec : Record) (currentYear : Int) : Bool × Bool :=
  if hasFreeFulltext rec then (false, false)
  else
    match yearIntOf rec with
    | none => (false, false)
    | some y =>
      let age := currentYear - y
      if age ≥ 2 then (false, true)
      else if age ≥ 1 then (true, false)
      else (false, false)

/-- The YAML lines of one author of the structured `authors:` list
(lines 563-569). -/
def authorYamlLines (a : AuthorMeta) : List String :=
  ("  - name: " ++ jsonDumps a.name) ::
    (match a.orcid with
     | some o => ["    orcid: " ++ jsonDumps o]
     | none => [])

/-- Model of `build_yaml_header` (lines 460-593) as the list of YAML lines,
in the order of the Python appends. -/
def yamlHeaderLines (rec : Record) (currentYear : Int) : List String :=
  let title := pyTrim (gf rec.title)
  let year_str := yearStrOf rec
  let keywords := split_keywords (gf rec.keywords)
  let categories := if keywords.isEmpty then ["research-paper"] else keywords
  let doi := pyTrim (gf rec.doi)
  let url := pyTrim (gf rec.url)
  let journal_name := pyTrim (gf2 rec.journal rec.journal_name)
  let outlet := pyTrim (gf3 rec.outlet rec.journal rec.booktitle)
  let author := pyTrim (gf rec.author)
  let flags := selfArchFlags rec currentYear
  let authors_meta := build_authors_metadata rec
  let key := gf2 rec.ID rec.id
  ["---"]
  ++ [if title ≠ "" then "title: " ++ jsonDumps title
      else "title: \"\"  # TODO: add title"]
  ++ [if year_str ≠ "" then "date: " ++ jsonDumps year_str
      else "date: \"\"  # TODO: add year"]
  ++ ["date-format: \"YYYY\""]
  ++ ["categories: " ++ jsonDumpsList categories]
  ++ ["keywords: " ++ jsonDumpsList keywords]
  ++ (if doi ≠ "" then ["doi: " ++ jsonDumps doi] else [])
  ++ (if url ≠ "" then ["url: " ++ jsonDumps url] else [])
  ++ (if journal_name ≠ "" then ["journal.name: " ++ jsonDumps journal_name] else [])
  ++ (if outlet ≠ "" then ["outlet: " ++ jsonDumps outlet] else [])
  ++ (if author ≠ "" then ["author: " ++ jsonDumps author] else [])
  ++ (if ¬ authors_meta.isEmpty then
        "authors:" :: authors_meta.flatMap authorYamlLines
      else [])
  ++ (if key ≠ "" then ["citation_key: " ++ jsonDumps key] else [])
  ++ ["free_fulltext: " ++ boolStr (hasFreeFulltext rec)]
  ++ ["self_archiving_possible_1y: " ++ boolStr flags.1]
  ++ ["self_archiving_possible_2y: " ++ boolStr flags.2]
  ++ ["format:\n  html:\n    include-after-body: ../../assets/metrics-scripts.html"]
  ++ ["---", ""]

/-- Model of `build_yaml_header`: the lines joined with newlines. -/
def build_yaml_header (rec : Record) (currentYear : Int) : String :=
  joinSep "\n" (yamlHeaderLines rec currentYear)

/-!  ## Page renderer: body (`build_body`, lines 596-845). -/

/-- `doi_raw` of the body builder (line 619). -/
def doiRawOf (rec : Record) : String := pyTrim (gf rec.doi)

/-- The landing-page link from DOI/URL (lines 622-628): a non-`http` DOI is
routed through the resolver, else the DOI, else the URL. -/
def landingLink (rec : Record) : String :=
  let doi_raw := doiRawOf rec
  let url_raw := pyTrim (gf rec.url)
  if doi_raw ≠ "" ∧ ¬ startsWithStr doi_raw "http" then "https://doi.org/" ++ doi_raw
  else if doi_raw ≠ "" then doi_raw
  else if url_raw ≠ "" then url_raw
  else ""

/-- The href of the author-copy file (lines 634-640): external links as-is,
local paths made repo-root-relative. -/
def authorCopyFileHref (rec : Record) : String :=
  let raw := authorCopyFileRaw rec
  if raw ≠ "" then
    if startsWithStr raw "http" then raw else "/" ++ stripLeadingSlashes raw
  else ""

/-- The stripped, lower-cased `oa_status` field (line 643). -/
def oaStatusOf (rec : Record) : String := pyLower (pyTrim (gf rec.oa_status))

/-- The href of the full-text PDF (lines 646-656): external links as-is, the
literal `"TODO"` means explicitly not available yet (no link target), other
values are repo-root-relative paths. -/
def fulltextOaHref (rec : Record) : String :=
  let raw := fulltextOaRaw rec
  if raw ≠ "" then
    if startsWithStr raw "http" then raw
    else if raw = "TODO" then ""
    else "/" ++ stripLeadingSlashes raw
  else ""

/-- The label of the full-text button (lines 658-661). -/
def fulltextLabel (rec : Record) : String :=
  if oaStatusOf rec = "open" then "Open access PDF" else "Full-text PDF"

/-- The href of the embedded PDF (line 665): `fulltext_oa` if available,
otherwise the author-copy file. -/
def pdfEmbedHref (rec : Record) : String :=
  if fulltextOaHref rec ≠ "" then fulltextOaHref rec else authorCopyFileHref rec

/-- The heading of the embedded PDF (line 666). -/
def pdfEmbedLabel (rec : Record) : String :=
  if fulltextOaHref rec ≠ "" then fulltextLabel rec else "Author-copy PDF"

/-- The embedded-PDF block (lines 664-676), empty when there is no href. -/
def pdfEmbedBlock (rec : Record) : String :=
  if pdfEmbedHref rec ≠ "" then
    "## " ++ pdfEmbedLabel rec ++ "\n\n<iframe src=\"" ++ pdfEmbedHref rec
      ++ "\" width=\"100%\" height=\"800px\" style=\"border: 1px solid #ccc;\">\n"
      ++ "  This browser does not support PDFs. "
      ++ "Please use the button above to download the PDF.\n</iframe>\n"
  else ""

/-- The button for the article landing page (lines 683-689). -/
def landingButton (rec : Record) : String :=
  "  <a class=\"btn btn-sm btn-outline-secondary me-2\" href=\"" ++ landingLink rec
    ++ "\" target=\"_blank\" role=\"button\">\n"
    ++ "    <i class=\"bi bi-box-arrow-up-right\"></i> Article / DOI link\n  </a>"

/-- The href of the author-copy button (line 691). -/
def authorCopyHref (rec : Record) : String :=
  if authorCopyUrlS rec ≠ "" then authorCopyUrlS rec else authorCopyFileHref rec

/-- The author-copy button (lines 692-698). -/
def authorCopyButton (rec : Record) : String :=
  "  <a class=\"btn btn-sm btn-outline-secondary me-2\" href=\"" ++ authorCopyHref rec
    ++ "\" target=\"_blank\" role=\"button\">\n"
    ++ "    <i class=\"bi bi-file-earmark-text\"></i> Author copy\n  </a>"

/-- The full-text PDF button (lines 700-707). -/
def fulltextButton (rec : Record) : String :=
  "  <a class=\"btn btn-sm btn-outline-primary\" href=\"" ++ fulltextOaHref rec
    ++ "\" target=\"_blank\" role=\"button\">\n"
    ++ "    <i class=\"bi bi-file-earmark-pdf\"></i> " ++ fulltextLabel rec ++ "\n  </a>"

/-- The `btns` list of the centered button bar (lines 681-707): each button is
appended only when its link exists. -/
def buildBtns (rec : Record) : List String :=
  (if landingLink rec ≠ "" then [landingButton rec] else [])
  ++ (if authorCopyHref rec ≠ "" then [authorCopyButton rec] else [])
  ++ (if fulltextOaHref rec ≠ "" then [fulltextButton rec] else [])

/-- The centered button bar (lines 679-711), empty when no link exists. -/
def buttonsBlock (rec : Record) : String :=
  if landingLink rec ≠ "" ∨ authorCopyUrlS rec ≠ "" ∨ authorCopyFileHref rec ≠ ""
      ∨ fulltextOaHref rec ≠ "" then
    "<div class=\"text-center my-3\">\n" ++ joinSep "\n" (buildBtns rec) ++ "\n</div>\n"
  else ""

/-- The summary section plus button bar (lines 716-723). -/
def summaryBlock (rec : Record) : String :=
  let abstract := pyTrim (gf rec.abstract)
  (if abstract ≠ "" then
    "\n\n# Summary\n\n::: \x7b .justify \x7d\n\n" ++ abstract ++ "\n\n:::\n"
   else "")
  ++ (if buttonsBlock rec ≠ "" then "\n" ++ buttonsBlock rec ++ "\n" else "")

/-- The dataset-DOI link (lines 734-739). -/
def datasetDoiLink (rec : Record) : String :=
  let raw := pyTrim (gf rec.dataset_doi)
  if raw ≠ "" then
    if startsWithStr raw "http" then raw else "https://doi.org/" ++ raw
  else ""

/-- The lines of the additional-resources list (lines 741-755); the dataset
link and DOI are combined into one line when both are present. -/
def resourceLines (rec : Record) : List String :=
  let summary_url := pyTrim (gf rec.summary_url)
  let appendix_url := pyTrim (gf rec.appendix_url)
  let dataset_url := pyTrim (gf rec.dataset_url)
  let code_url := pyTrim (gf rec.code_url)
  (if summary_url ≠ "" then ["- Summary / overview: <" ++ summary_url ++ ">"] else [])
  ++ (if appendix_url ≠ "" then
        ["- Appendix / supplementary materials: <" ++ appendix_url ++ ">"] else [])
  ++ (if code_url ≠ "" then ["- Code / source: <" ++ code_url ++ ">"] else [])
  ++ (if dataset_url ≠ "" ∧ datasetDoiLink rec ≠ "" then
        ["- Dataset: <" ++ dataset_url ++ "> (DOI: <" ++ datasetDoiLink rec ++ ">)"]
      else if dataset_url ≠ "" then ["- Dataset: <" ++ dataset_url ++ ">"]
      else if datasetDoiLink rec ≠ "" then
        ["- Dataset DOI: <" ++ datasetDoiLink rec ++ ">"]
      else [])

/-- The impact-metrics embed block keyed by the HTML-escaped DOI
(lines 778-811). -/
def metricsBlock (rec : Record) : String :=
  let doi_attr := htmlEscape (doiRawOf rec)
  "\n```\x7b=html\x7d\n<div class=\"metrics-row\">\n\n  <!-- Altmetric badge -->\n"
  ++ "  <div class=\"metric\">\n    <div class=\"altmetric-embed\"\n"
  ++ "         data-badge-type=\"donut\"\n         data-badge-popover=\"right\"\n"
  ++ "         data-doi=\"" ++ doi_attr ++ "\"\n"
  ++ "         data-hide-no-mentions=\"true\">\n    </div>\n  </div>\n\n"
  ++ "  <!-- Dimensions badge -->\n  <div class=\"metric\">\n"
  ++ "    <span class=\"__dimensions_badge_embed__\"\n"
  ++ "          data-doi=\"" ++ doi_attr ++ "\"\n"
  ++ "          data-style=\"small_circle\"\n"
  ++ "          data-hide-zero-citations=\"true\"\n"
  ++ "          data-legend=\"hover-right\">\n    </span>\n  </div>\n\n"
  ++ "  <!-- scite.ai badge -->\n  <div class=\"metric\">\n"
  ++ "    <div class=\"scite-badge\"\n"
  ++ "         data-doi=\"" ++ doi_attr ++ "\">\n    </div>\n  </div>\n\n"
  ++ "</div>\n```\n"

/-- The template merge of `build_body` (lines 765-772): after removing
leading whitespace, a template whose lower-cased text starts with the prefix
`"# summary"` loses its first line and the following blank lines. -/
def stripSummaryHeading (template_body : String) : String :=
  let tmpl := pyLstrip template_body
  if startsWithStr (pyLower tmpl) "# summary" then
    lstripNewlines (joinSep "\n"
      (((pySplitLines tmpl).drop 1).dropWhile (fun l => pyTrim l = "")))
  else tmpl

/-- The `parts` list of `build_body` (lines 713-843), in append order:
summary+buttons (always appended, possibly empty), resources, embedded PDF,
merged template, metrics, APA, BibTeX and RIS blocks.  `none` models the
`ValueError` that `record_to_bibtex` raises on a key-less record. -/
def bodyParts (rec : Record) (template_body : String) : Option (List String) :=
  match record_to_bibtex? rec with
  | none => none
  | some bibtex_entry =>
    let parts := [summaryBlock rec]
    let parts := parts ++ (if ¬ (resourceLines rec).isEmpty then
      ["## Additional resources\n\n" ++ joinSep "\n" (resourceLines rec) ++ "\n"]
      else [])
    let parts := parts ++ (if pdfEmbedBlock rec ≠ "" then [pdfEmbedBlock rec] else [])
    let tmpl := stripSummaryHeading template_body
    let parts := parts ++ (if pyTrim tmpl ≠ "" then [tmpl] else [])
    let parts := parts ++ (if doiRawOf rec ≠ "" then [metricsBlock rec] else [])
    let apa_citation := pyTrim (format_apa_citation rec)
    let parts := parts ++ (if apa_citation ≠ "" then
      ["## Citation (APA style)\n\n<div class=\"apa-citation\">\n"
        ++ "<p style=\"text-indent:-2.5em; margin-left:2.5em;\">\n"
        ++ htmlEscape apa_citation ++ "\n</p>\n</div>\n"]
      else [])
    let parts := parts ++ (if pyTrim bibtex_entry ≠ "" then
      ["## Citation: BibTeX\n\n```bibtex\n" ++ bibtex_entry ++ "\n```\n"] else [])
    let ris_entry := record_to_ris rec
    let parts := parts ++ (if pyTrim ris_entry ≠ "" then
      ["## Citation: RIS\n\n```bibtex\n" ++ ris_entry ++ "\n```\n"] else [])
    some parts

/-- Model of `build_body`: the parts joined with blank lines, right-stripped,
with a final newline. -/
def build_body (rec : Record) (template_body : String) : Option String :=
  (bodyParts rec template_body).map (fun parts =>
    pyRstrip (joinSep "\n\n" parts) ++ "\n")

/-- One generated page: the YAML header directly followed by the body
(`content = yaml_header + body`, line 901). -/
def build_page (rec : Record) (currentYear : Int) (template_body : String) :
    Option String :=
  (build_body rec template_body).map (fun b => build_yaml_header rec currentYear ++ b)

/-!  ## Batch driver (`main`, lines 848-907).  The filesystem state is the
set of file names in the output directory, modelled as a list; writing the
cleaned `references.bib` does not touch the output directory and is not
modelled. -/

/-- The key under which `main` files a record (line 884):
`get_field(record, "ID", "id").strip()`. -/
def mainKeyOf (rec : Record) : String := pyTrim (gf2 rec.ID rec.id)

/-- `record.setdefault("ID", key)` (line 890): presence-based, so an existing
(even empty) `ID` value is kept. -/
def setdefaultID (rec : Record) (key : String) : Record :=
  if rec.ID = none then { rec with ID := some key } else rec

/-- The running state of the generation loop: the files now present in the
output directory and the two counters. -/
structure BatchState where
  files : List String
  created : Nat
  skipped : Nat
deriving DecidableEq

/-- One iteration of the loop of `main` (lines 879-905): a record without an
identifier is passed over (with a warning, not counted), an existing
destination file counts as skipped, otherwise the page is rendered and the
file written.  `none` models an uncaught exception aborting the run. -/
def processRecord (currentYear : Int) (template_body : String)
    (st : BatchState) (rec : Record) : Option BatchState :=
  let key := mainKeyOf rec
  if key = "" then some st
  else
    let out_name := key ++ ".qmd"
    if out_name ∈ st.files then
      some { st with skipped := st.skipped + 1 }
    else
      match build_page (setdefaultID rec key) currentYear template_body with
      | none => none
      | some _ =>
        some { files := st.files ++ [out_name], created := st.created + 1,
               skipped := st.skipped }

/-- The generation loop of `main` over all records. -/
def runBatch (currentYear : Int) (template_body : String) :
    List Record → BatchState → Option BatchState
  | [], st => some st
  | r :: rs, st =>
    match processRecord currentYear template_body st r with
    | none => none
    | some st' => runBatch currentYear template_body rs st'

/-- Model of a run of `main` (lines 848-907) over the paper records, given
the files already present in the output directory: the directory is emptied
before generation (lines 861-867 remove every file and subdirectory), so the
loop always starts from an empty directory and the prior contents are
irrelevant; the body template is the empty `DEFAULT_BODY_TEMPLATE`. -/
def mainRun (currentYear : Int) (records : List Record)
    (_priorFiles : List String) : Option BatchState :=
  runBatch currentYear "" records ⟨[], 0, 0⟩

/-!  ## Sample records for the concrete witnesses and counterexamples. -/

/-- A record with the exact fields of the round-trip example of the spec. -/
def c3rec : Record :=
  { author := some "Smith, John and Doe, Jane", year := some "2020",
    title := some "T", journal := some "J", volume := some "1",
    pages := some "10--20" }

/-- A record with every field the APA formatter reads absent. -/
def c4rec : Record := { ENTRYTYPE := none }

/-- A minimal valid record with identifier `alpha`. -/
def c1recA : Record := { ID := some "alpha" }

/-- A minimal valid record with identifier `beta`. -/
def c1recB : Record := { ID := some "beta" }

/-- A record with a 2020 publication year and no free full text. -/
def c2rec : Record := { ID := some "k2", year := some "2020" }

/-- A record whose `fulltext_oa` field is the literal `TODO` and which also
has a DOI. -/
def c10rec : Record :=
  { ID := some "k10", fulltext_oa := some "TODO", doi := some "10.1000/xyz" }

/-- A record whose year has a non-numeric prefix. -/
def c8rec : Record := { ID := some "k8", year := some "forthcoming" }

/-- A record with three authors and an ORCID list with an empty first
placeholder and fewer positions than authors. -/
def c7rec : Record :=
  { author := some "Smith, John and Doe, Jane and Roe, Max",
    author_an_orcid := some ";0000-0002-1825-0097" }

/-- A record carrying only an identifier, for the template-merge example. -/
def c9rec : Record := { ID := some "k9" }

/-- A record with free full text and an old year, for the availability
flag. -/
def c6rec : Record := { ID := some "k6", fulltext_oa := some "TODO" }

/-- A record with an ordinary RIS shape. -/
def c5rec : Record :=
  { ENTRYTYPE := some "inproceedings", ID := some "k5",
    author := some "Smith, John and Doe, Jane", title := some "T",
    booktitle := some "Proc", year := some "2020", pages := some "10--20" }

/-!  ## Helper lemmas -/

/-- Every part is an infix of the joined string. -/
theorem infix_joinSep_of_mem (sep : String) :
    ∀ (l : List String) (x : String), x ∈ l → x.data <:+: (joinSep sep l).data
  | [], x, hx => absurd hx (List.not_mem_nil x)
  | [y], x, hx => by
    rcases List.mem_singleton.mp hx with rfl
    exact List.infix_rfl
  | y :: z :: zs, x, hx => by
    rcases List.mem_cons.mp hx with rfl | hx
    · show x.data <:+: (x ++ sep ++ joinSep sep (z :: zs)).data
      simp only [String.data_append, List.append_assoc]
      exact (List.prefix_append _ _).isInfix
    · have ih := infix_joinSep_of_mem sep (z :: zs) x hx
      show x.data <:+: (y ++ sep ++ joinSep sep (z :: zs)).data
      simp only [String.data_append]
      exact ih.trans ((List.suffix_append _ _).isInfix)

/-- A non-empty, all-non-whitespace infix survives `List.dropWhile isWs`. -/
theorem infix_dropWhile_ws (x : List Char) (hne : x ≠ [])
    (hws : ∀ c ∈ x, isWs c = false) :
    ∀ l : List Char, x <:+: l → x <:+: l.dropWhile isWs := by
  intro l
  induction l with
  | nil => intro h; exact h.trans (by simp)
  | cons c l ih =>
    intro h
    by_cases hc : isWs c
    · rw [List.dropWhile_cons_of_pos hc]
      rcases List.infix_cons_iff.mp h with hpre | hinf
      · obtain ⟨a, as, rfl⟩ : ∃ a as, x = a :: as := by
          cases x with
          | nil => exact absurd rfl hne
          | cons a as => exact ⟨a, as, rfl⟩
        obtain ⟨t, ht⟩ := hpre
        have hac : a = c := by
          have := congrArg List.head? ht
          simpa using this
        have haws : isWs a = false := hws a (List.mem_cons_self a as)
        rw [← hac] at hc
        simp [hc] at haws
      · exact ih hinf
    · rw [List.dropWhile_cons_of_neg hc]
      exact h

/-- A non-empty, all-non-whitespace infix survives stripping. -/
theorem infix_trimList (x l : List Char) (hne : x ≠ [])
    (hws : ∀ c ∈ x, isWs c = false) (h : x <:+: l) : x <:+: trimList l := by
  unfold trimList
  have h1 : x <:+: l.dropWhile isWs := infix_dropWhile_ws x hne hws l h
  have h2 : x.reverse <:+: (l.dropWhile isWs).reverse := List.reverse_infix.mpr h1
  have h3 : x.reverse <:+: ((l.dropWhile isWs).reverse).dropWhile isWs :=
    infix_dropWhile_ws x.reverse (by simpa using hne)
      (fun c hc => hws c (List.mem_reverse.mp hc)) _ h2
  simpa using List.reverse_infix.mpr h3

/-- A member yields a singleton infix. -/
theorem singleton_infix_of_mem {c : Char} {l : List Char} (h : c ∈ l) :
    [c] <:+: l := by
  obtain ⟨s, t, rfl⟩ := List.append_of_mem h
  exact ⟨s, t, by simp⟩

/-- A string containing a non-whitespace character does not strip to the
empty string. -/
theorem pyTrim_ne_empty {s : String} {c : Char} (hc : c ∈ s.data)
    (hws : isWs c = false) : pyTrim s ≠ "" := by
  intro h
  have h2 : [c] <:+: trimList s.data :=
    infix_trimList [c] s.data (by simp)
      (by intro d hd; rcases List.mem_singleton.mp hd with rfl; exact hws)
      (singleton_infix_of_mem hc)
  have h3 : c ∈ trimList s.data := h2.subset (List.mem_singleton.mpr rfl)
  have h4 : trimList s.data = [] := congrArg String.data h
  simp [h4] at h3

/-- `startswith` only looks at the first characters: appending after a string
at least as long as the prefix cannot change the result. -/
theorem startsWith_append_of_le (pre v p : String)
    (h : p.data.length ≤ pre.data.length) :
    startsWithStr (pre ++ v) p = startsWithStr pre p := by
  unfold startsWithStr
  simp only [String.data_append]
  by_cases hp : p.data <+: pre.data
  · have h1 : p.data <+: pre.data ++ v.data := hp.trans (List.prefix_append _ _)
    rw [List.isPrefixOf_iff_prefix.mpr h1, List.isPrefixOf_iff_prefix.mpr hp]
  · have h1 : ¬ p.data <+: pre.data ++ v.data := by
      intro hcontra
      apply hp
      have htake := List.prefix_iff_eq_take.mp hcontra
      rw [List.take_append_eq_append_take, Nat.sub_eq_zero_of_le h,
        List.take_zero, List.append_nil] at htake
      exact List.prefix_iff_eq_take.mpr htake
    rw [Bool.eq_false_iff.mpr (fun hc => h1 (List.isPrefixOf_iff_prefix.mp hc)),
      Bool.eq_false_iff.mpr (fun hc => hp (List.isPrefixOf_iff_prefix.mp hc))]

/-- Right cancellation for string concatenation. -/
theorem strAppend_cancel_right {a b : String} (t : String)
    (h : a ++ t = b ++ t) : a = b := by
  have hd := congrArg String.data h
  simp only [String.data_append] at hd
  exact String.ext (List.append_cancel_right hd)

/-- The year component of the APA citation always starts with `(` and in
particular is never empty. -/
theorem paren_mem_apaYearStr (rec : Record) : '(' ∈ (apaYearStr rec).data := by
  show '(' ∈ (if pyTrim (getDflt rec.year "") ≠ "" then
    "(" ++ pyTrim (getDflt rec.year "") ++ ")." else "(n.d.).").data
  by_cases h : pyTrim (getDflt rec.year "") = ""
  · rw [if_neg (by simp [h])]
    decide
  · rw [if_pos h]
    simp only [String.data_append, List.append_assoc, List.mem_append]
    exact Or.inl (by decide)

/-- The year component of the APA citation is never the empty string. -/
theorem apaYearStr_ne_empty (rec : Record) : apaYearStr rec ≠ "" := by
  intro h
  have := paren_mem_apaYearStr rec
  rw [h] at this
  simp at this

/-!  ## Claim theorems -/

/-- Claim C3, counterexample: on the record
`{author: "Smith, John and Doe, Jane", year: "2020", title: "T",
journal: "J", volume: "1", pages: "10--20"}` the APA formatter does not
return the claimed string with an en dash in the page range — the `pages`
value is passed through verbatim, so the citation keeps the BibTeX `--`. -/
theorem c3_counterexample :
    format_apa_citation c3rec ≠ "Smith, J. & Doe, J. (2020). T. *J* 1, 10–20." := by
  decide

/-- Claim C3 (corrected): on that record the APA formatter returns exactly
`Smith, J. & Doe, J. (2020). T. *J* 1, 10--20.` — the two authors are joined
with `&`, and the pages keep the double hyphen of the source field because
`format_apa_citation` never rewrites it to an en dash. -/
theorem c3_apa_roundtrip_amended :
    format_apa_citation c3rec = "Smith, J. & Doe, J. (2020). T. *J* 1, 10--20." := by
  decide

/-- Claim C4, counterexample: on a record with every APA component absent the
formatter returns `"(n.d.)."`, not the empty string — the year part is
appended unconditionally, so the formatter never returns `""`. -/
theorem c4_counterexample :
    format_apa_citation c4rec = "(n.d.)." ∧ format_apa_citation c4rec ≠ "" := by
  constructor <;> decide

/-- Claim C1, counterexample: `main` empties the output directory before
generation, so a second run over the same two records again reports
2 created / 0 skipped (and rewrites the files) instead of the claimed
0 created / 2 skipped. -/
theorem c1_counterexample :
    mainRun 2026 [c1recA, c1recB] [] = some ⟨["alpha.qmd", "beta.qmd"], 2, 0⟩
    ∧ mainRun 2026 [c1recA, c1recB] ["alpha.qmd", "beta.qmd"]
        = some ⟨["alpha.qmd", "beta.qmd"], 2, 0⟩
    ∧ (mainRun 2026 [c1recA, c1recB] ["alpha.qmd", "beta.qmd"]).map
        BatchState.created ≠ some 0
    ∧ (mainRun 2026 [c1recA, c1recB] ["alpha.qmd", "beta.qmd"]).map
        BatchState.skipped ≠ some 2 := by
  refine ⟨by decide, by decide, by decide, by decide⟩

/-- Claim C9, counterexample: the heading check of the template merge is a
case-insensitive prefix match, so a template starting with `# SUMMARY`
(different capitalisation) is not appended unchanged: its heading line is
stripped, both in `stripSummaryHeading` and in the page body built from it. -/
theorem c9_counterexample :
    stripSummaryHeading "# SUMMARY\n\nHello" = "Hello"
    ∧ ("# SUMMARY\n\nHello" : String) ≠ "Hello"
    ∧ (build_body c9rec "# SUMMARY\n\nHello").isSome = true
    ∧ strContains ((build_body c9rec "# SUMMARY\n\nHello").getD "") "SUMMARY" = false
    ∧ strContains ((build_body c9rec "# SUMMARY\n\nHello").getD "") "Hello" = true := by
  refine ⟨by decide, by decide, by decide, by decide, by decide⟩

/-- Claim C2: the self-archiving flags are both false whenever free full text
is available or the year does not parse; when they are computed, the 1-year
flag holds exactly for ages in `[1, 2)` (it is overridden at age 2) and the
2-year flag exactly for ages `≥ 2`; the two flags are never both true. -/
theorem c2_self_archiving_flags (rec : Record) (cy : Int) :
    (hasFreeFulltext rec = true → selfArchFlags rec cy = (false, false))
    ∧ (yearIntOf rec = none → selfArchFlags rec cy = (false, false))
    ∧ (∀ y : Int, hasFreeFulltext rec = false → yearIntOf rec = some y →
        ((selfArchFlags rec cy).1 = true ↔ 1 ≤ cy - y ∧ cy - y < 2)
        ∧ ((selfArchFlags rec cy).2 = true ↔ 2 ≤ cy - y))
    ∧ ¬ ((selfArchFlags rec cy).1 = true ∧ (selfArchFlags rec cy).2 = true) := by
  refine ⟨?_, ?_, ?_, ?_⟩
  · intro h
    simp [selfArchFlags, h]
  · intro h
    unfold selfArchFlags
    rw [h]
    by_cases hf : hasFreeFulltext rec <;> simp [hf]
  · intro y hf hy
    unfold selfArchFlags
    rw [hy]
    simp only [hf, Bool.false_eq_true, if_false]
    constructor
    · constructor
      · intro h1
        by_cases h2 : cy - y ≥ 2
        · simp [h2] at h1
        · by_cases h3 : cy - y ≥ 1
          · omega
          · simp [h2, h3] at h1
      · intro ⟨ha, hb⟩
        have h2 : ¬ cy - y ≥ 2 := by omega
        simp [h2, ha]
    · constructor
      · intro h1
        by_cases h2 : cy - y ≥ 2
        · exact h2
        · by_cases h3 : cy - y ≥ 1 <;> simp [h2, h3] at h1
      · intro h2
        simp [h2]
  · intro ⟨h1, h2⟩
    unfold selfArchFlags at h1 h2
    by_cases hf : hasFreeFulltext rec
    · simp [hf] at h1
    · simp only [hf, Bool.false_eq_true, if_false] at h1 h2
      cases hy : yearIntOf rec with
      | none => rw [hy] at h1; simp at h1
      | some y =>
        rw [hy] at h1 h2
        by_cases ha : cy - y ≥ 2
        · simp [ha] at h1
        · by_cases hb : cy - y ≥ 1 <;> simp [ha, hb] at h1 h2

/-- Claim C2, witness: a 2020 paper with no free full text, seen from 2026,
is 2-year eligible (and the theorem's hypotheses hold for it). -/
theorem c2_witness :
    hasFreeFulltext c2rec = false ∧ yearIntOf c2rec = some 2020
    ∧ (selfArchFlags c2rec 2026).2 = true ∧ (selfArchFlags c2rec 2026).1 = false := by
  refine ⟨by decide, by decide, ?_, ?_⟩
  · exact (((c2_self_archiving_flags c2rec 2026).2.2.1 2020 (by decide)
      (by decide)).2).mpr (by decide)
  · have h := (((c2_self_archiving_flags c2rec 2026).2.2.1 2020 (by decide)
      (by decide)).1)
    by_contra hc
    simp only [Bool.not_eq_false] at hc
    have := h.mp hc
    omega

/-- Claim C6: the `free_fulltext` flag is true exactly when at least one of
the `fulltext_oa`, `author_copy_url` or `author_copy_file` fields carries a
non-empty (stripped) value; the flag line is emitted in the YAML header; and
when all three fields are absent the flag is false. -/
theorem c6_free_fulltext_iff (rec : Record) (cy : Int) :
    (hasFreeFulltext rec = true ↔
      (fulltextOaRaw rec ≠ "" ∨ authorCopyUrlS rec ≠ "" ∨ authorCopyFileRaw rec ≠ ""))
    ∧ ("free_fulltext: " ++ boolStr (hasFreeFulltext rec)) ∈ yamlHeaderLines rec cy
    ∧ (rec.fulltext_oa = none → rec.author_copy_url = none →
        rec.author_copy_file = none → hasFreeFulltext rec = false) := by
  refine ⟨?_, ?_, ?_⟩
  · simp only [hasFreeFulltext, Bool.or_eq_true, bne_iff_ne, ne_eq]
    tauto
  · simp [yamlHeaderLines, List.mem_append, List.mem_cons]
  · intro h1 h2 h3
    simp only [hasFreeFulltext, fulltextOaRaw, authorCopyUrlS, authorCopyFileRaw,
      gf, h1, h2, h3]
    decide

/-- Claim C6, witness: a record with all three availability fields absent has
a false flag, and the record with `fulltext_oa = "TODO"` a true one. -/
theorem c6_witness :
    hasFreeFulltext ({} : Record) = false ∧ hasFreeFulltext c6rec = true :=
  ⟨(c6_free_fulltext_iff {} 0).2.2 rfl rfl rfl,
   ((c6_free_fulltext_iff c6rec 0).1).mpr (Or.inl (by decide))⟩

/-- The structured author list keeps the author names in order. -/
theorem buildAuthorsAux_map_name (orc : List (Option String)) :
    ∀ (ns : List String) (i : Nat),
      (buildAuthorsAux orc i ns).map AuthorMeta.name = ns
  | [], _ => rfl
  | n :: ns, i => by
    simp [buildAuthorsAux, buildAuthorsAux_map_name orc ns (i + 1)]

/-- The structured author list has one entry per author name. -/
theorem buildAuthorsAux_length (orc : List (Option String)) :
    ∀ (ns : List String) (i : Nat),
      (buildAuthorsAux orc i ns).length = ns.length
  | [], _ => rfl
  | n :: ns, i => by
    simp [buildAuthorsAux, buildAuthorsAux_length orc ns (i + 1)]

/-- The ORCID assigned at position `j` of the structured author list is the
ORCID at overall position `i + j` of the placeholder-preserving list. -/
theorem buildAuthorsAux_getD_orcid (orc : List (Option String)) :
    ∀ (ns : List String) (i j : Nat), j < ns.length →
      ((buildAuthorsAux orc i ns).getD j ⟨"", none⟩).orcid = orc.getD (i + j) none
  | [], _, j, h => by simp at h
  | n :: ns, i, 0, _ => by simp [buildAuthorsAux]
  | n :: ns, i, j + 1, h => by
    have ih := buildAuthorsAux_getD_orcid orc ns (i + 1) j
      (by simpa using Nat.lt_of_succ_lt_succ h)
    simpa [buildAuthorsAux, Nat.add_assoc, Nat.add_comm 1 j] using ih

/-- Claim C7: the structured author list carries exactly the split author
names in order; the author at position `i` receives the identifier at
position `i` of the placeholder-preserving ORCID list (empty placeholders
and out-of-range positions both give no identifier), so the positional
alignment never shifts even when the two lists have unequal lengths. -/
theorem c7_author_orcid_alignment (rec : Record) :
    ((build_authors_metadata rec).map AuthorMeta.name = authorNamesOf rec)
    ∧ (build_authors_metadata rec).length = (authorNamesOf rec).length
    ∧ (∀ i : Nat, i < (authorNamesOf rec).length →
        ((build_authors_metadata rec).getD i ⟨"", none⟩).orcid
          = (orcidListOf rec).getD i none)
    ∧ (∀ i : Nat, (orcidListOf rec).length ≤ i →
        ((build_authors_metadata rec).getD i ⟨"", none⟩).orcid = none) := by
  refine ⟨buildAuthorsAux_map_name _ _ 0, buildAuthorsAux_length _ _ 0, ?_, ?_⟩
  · intro i hi
    have h := buildAuthorsAux_getD_orcid (orcidListOf rec) (authorNamesOf rec) 0 i hi
    simpa using h
  · intro i hi
    by_cases hlt : i < (authorNamesOf rec).length
    · rw [build_authors_metadata,
        buildAuthorsAux_getD_orcid (orcidListOf rec) (authorNamesOf rec) 0 i hlt,
        Nat.zero_add]
      exact List.getD_eq_default _ _ hi
    · have hlen : (build_authors_metadata rec).length ≤ i := by
        rw [build_authors_metadata, buildAuthorsAux_length]
        omega
      rw [List.getD_eq_default _ _ hlen]

/-- Claim C7, witness: three authors with the ORCID list `";0000-0002-1825-0097"`
(an empty placeholder, one ORCID, and no third position): the first author
gets no identifier, the second gets the ORCID, the third is beyond the list
and gets none. -/
theorem c7_witness :
    (build_authors_metadata c7rec).map AuthorMeta.name
        = ["Smith, John", "Doe, Jane", "Roe, Max"]
    ∧ ((build_authors_metadata c7rec).getD 0 ⟨"", none⟩).orcid = none
    ∧ ((build_authors_metadata c7rec).getD 1 ⟨"", none⟩).orcid
        = some "0000-0002-1825-0097"
    ∧ ((build_authors_metadata c7rec).getD 2 ⟨"", none⟩).orcid = none := by
  have h := c7_author_orcid_alignment c7rec
  refine ⟨?_, ?_, ?_, ?_⟩
  · rw [h.1]; decide
  · rw [h.2.2.1 0 (by decide)]; decide
  · rw [h.2.2.1 1 (by decide)]; decide
  · exact h.2.2.2 2 (by decide)

/-- Claim C8: a record whose (non-empty) year does not parse to an integer
gets both self-archiving flags false, but page generation is not blocked:
the header still carries both flag lines and the record's raw year as its
date, and the full page is still produced for any record with a citation
key. -/
theorem c8_malformed_year (rec : Record) (cy : Int) (tmpl : String)
    (hne : yearStrOf rec ≠ "")
    (hbad : pyInt? (strTake (yearStrOf rec) 4) = none) :
    selfArchFlags rec cy = (false, false)
    ∧ "self_archiving_possible_1y: false" ∈ yamlHeaderLines rec cy
    ∧ "self_archiving_possible_2y: false" ∈ yamlHeaderLines rec cy
    ∧ ("date: " ++ jsonDumps (yearStrOf rec)) ∈ yamlHeaderLines rec cy
    ∧ (∀ k, bibKey? rec = some k → (build_page rec cy tmpl).isSome = true) := by
  have hy : yearIntOf rec = none := by
    show (if yearStrOf rec ≠ "" then pyInt? (strTake (yearStrOf rec) 4)
      else none) = none
    rw [if_pos hne]
    exact hbad
  have hflags : selfArchFlags rec cy = (false, false) := by
    by_cases hf : hasFreeFulltext rec <;> simp [selfArchFlags, hf, hy]
  refine ⟨hflags, ?_, ?_, ?_, ?_⟩
  · simp [yamlHeaderLines, hflags, boolStr]
  · simp [yamlHeaderLines, hflags, boolStr]
  · simp [yamlHeaderLines, hne]
  · intro k hk
    simp [build_page, build_body, bodyParts, record_to_bibtex?, hk]

/-- Claim C8, witness: the record with year `forthcoming` has both flags
false and its page is still generated. -/
theorem c8_witness :
    yearStrOf c8rec = "forthcoming"
    ∧ selfArchFlags c8rec 2026 = (false, false)
    ∧ (build_page c8rec 2026 "").isSome = true := by
  have h := c8_malformed_year c8rec 2026 "" (by decide) (by decide)
  exact ⟨by decide, h.1, h.2.2.2.2 "k8" (by decide)⟩

/-- Claim C10: a record whose `fulltext_oa` field is the literal `TODO` and
whose author-copy fields are empty yields no full-text link target, hence no
embedded-PDF block and no full-text button (the button bar holds at most the
landing-page button), while the header still reports `free_fulltext: true`
because the field is non-empty. -/
theorem c10_todo_fulltext (rec : Record) (cy : Int)
    (h1 : fulltextOaRaw rec = "TODO")
    (h2 : authorCopyUrlS rec = "")
    (h3 : authorCopyFileRaw rec = "") :
    fulltextOaHref rec = ""
    ∧ pdfEmbedBlock rec = ""
    ∧ buildBtns rec = (if landingLink rec ≠ "" then [landingButton rec] else [])
    ∧ hasFreeFulltext rec = true
    ∧ "free_fulltext: true" ∈ yamlHeaderLines rec cy := by
  have hff : fulltextOaHref rec = "" := by
    simp only [fulltextOaHref, h1]
    decide
  have hach : authorCopyFileHref rec = "" := by
    simp only [authorCopyFileHref, h3]
    decide
  have hacHref : authorCopyHref rec = "" := by
    simp only [authorCopyHref, h2, hach]
    decide
  have hfft : hasFreeFulltext rec = true := by
    unfold hasFreeFulltext
    rw [h1, h2, h3]
    decide
  have hhref : pdfEmbedHref rec = "" := by
    simp only [pdfEmbedHref, hff, hach]
    decide
  refine ⟨hff, ?_, ?_, hfft, ?_⟩
  · simp only [pdfEmbedBlock, hhref]
    rw [if_neg (by decide : ¬("" : String) ≠ "")]
  · simp [buildBtns, hacHref, hff]
  · simp [yamlHeaderLines, hfft, boolStr]

/-- Claim C10, witness: the concrete record with `fulltext_oa = "TODO"` and a
DOI: no embed block, only the landing button, and a true flag. -/
theorem c10_witness :
    fulltextOaHref c10rec = "" ∧ pdfEmbedBlock c10rec = ""
    ∧ buildBtns c10rec = [landingButton c10rec]
    ∧ hasFreeFulltext c10rec = true := by
  have h := c10_todo_fulltext c10rec 2026 (by decide) (by decide) (by decide)
  refine ⟨h.1, h.2.1, ?_, h.2.2.2.1⟩
  rw [h.2.2.1]
  rw [if_pos (by decide : landingLink c10rec ≠ "")]

/-- Claim C9 (corrected): the template merge strips the leading heading
exactly when the template, after removal of leading whitespace, starts
case-insensitively with the prefix `"# summary"` (so other capitalisations,
and headings merely extending that text, are stripped too); any other
template is appended unchanged apart from that leading-whitespace removal. -/
theorem c9_template_strip_amended (tmpl : String) :
    (startsWithStr (pyLower (pyLstrip tmpl)) "# summary" = false →
      stripSummaryHeading tmpl = pyLstrip tmpl)
    ∧ (startsWithStr (pyLower (pyLstrip tmpl)) "# summary" = true →
      stripSummaryHeading tmpl = lstripNewlines (joinSep "\n"
        (((pySplitLines (pyLstrip tmpl)).drop 1).dropWhile
          (fun l => pyTrim l = "")))) := by
  constructor
  · intro h
    unfold stripSummaryHeading
    rw [if_neg (by rw [h]; exact Bool.false_ne_true)]
  · intro h
    unfold stripSummaryHeading
    rw [if_pos h]

/-- Claim C9, witness: a template that does not start with the heading is
appended unchanged, and one in upper case does get its heading dropped. -/
theorem c9_witness :
    stripSummaryHeading "Plain body text" = "Plain body text"
    ∧ stripSummaryHeading "# Summary\n\nBody" = "Body" := by
  constructor
  · rw [(c9_template_strip_amended "Plain body text").1 (by decide)]
    decide
  · rw [(c9_template_strip_amended "# Summary\n\nBody").2 (by decide)]
    decide

/-- Claim C1 (corrected): a run of the batch driver over two records with
distinct non-empty keys always reports 2 created / 0 skipped and leaves
exactly the two fresh files — whatever was in the output directory before,
because `main` empties it first.  In particular the first run on an empty
directory behaves as claimed, but a second run regenerates both files with
counts 2/0 instead of skipping them with counts 0/2; the skip path can only
fire for a key duplicated within a single run. -/
theorem c1_batch_amended (r1 r2 : Record) (cy : Int) (prior : List String)
    (k1 k2 : String)
    (h1 : mainKeyOf r1 = k1) (h2 : mainKeyOf r2 = k2)
    (hk1 : k1 ≠ "") (hk2 : k2 ≠ "") (hne : k1 ≠ k2)
    (hb1 : (build_page (setdefaultID r1 k1) cy "").isSome = true)
    (hb2 : (build_page (setdefaultID r2 k2) cy "").isSome = true) :
    mainRun cy [r1, r2] prior = some ⟨[k1 ++ ".qmd", k2 ++ ".qmd"], 2, 0⟩ := by
  obtain ⟨p1, hp1⟩ := Option.isSome_iff_exists.mp hb1
  obtain ⟨p2, hp2⟩ := Option.isSome_iff_exists.mp hb2
  have hmem : ¬ (k2 ++ ".qmd") ∈ [k1 ++ ".qmd"] := by
    intro hmem
    exact hne (strAppend_cancel_right ".qmd" (List.mem_singleton.mp hmem)).symm
  unfold mainRun runBatch processRecord
  rw [h1, if_neg hk1]
  simp only [List.not_mem_nil, if_false, if_neg (List.not_mem_nil (k1 ++ ".qmd")), hp1]
  unfold runBatch processRecord
  rw [h2, if_neg hk2]
  simp only [List.nil_append, if_neg hmem, hp2]
  rfl

/-- Claim C1, witness: the two sample records, run against a directory that
already holds the first run's files: still 2 created, 0 skipped. -/
theorem c1_witness :
    mainRun 2026 [c1recA, c1recB] ["alpha.qmd", "beta.qmd"]
      = some ⟨["alpha.qmd", "beta.qmd"], 2, 0⟩ :=
  c1_batch_amended c1recA c1recB 2026 ["alpha.qmd", "beta.qmd"] "alpha" "beta"
    (by decide) (by decide) (by decide) (by decide) (by decide)
    (by decide) (by decide)

/-- Unfolding `pyTrim` on the character level. -/
theorem pyTrim_data (s : String) : (pyTrim s).data = trimList s.data := rfl

/-- The joined, filtered APA parts never strip to the empty string, because
the year component is always among them. -/
theorem apa_join_ne_empty (l : List String) (rec : Record)
    (h : apaYearStr rec ∈ l) :
    pyTrim (joinSep " " (l.filter (· ≠ ""))) ≠ "" := by
  have hmemf : apaYearStr rec ∈ l.filter (· ≠ "") :=
    List.mem_filter.mpr ⟨h, by simpa using apaYearStr_ne_empty rec⟩
  have hinf := infix_joinSep_of_mem " " (l.filter (· ≠ "")) (apaYearStr rec) hmemf
  have hparen := hinf.subset (paren_mem_apaYearStr rec)
  exact pyTrim_ne_empty hparen (by decide)

/-- Claim C4 (corrected): the APA formatter never returns the empty string —
the year component is appended unconditionally — so it is non-empty whenever
any component is present; a missing year is rendered as `(n.d.).`, and when
every component is absent the result is exactly `"(n.d.)."` rather than the
empty string. -/
theorem c4_apa_nonempty_amended (rec : Record) :
    format_apa_citation rec ≠ ""
    ∧ (pyTrim (getDflt rec.year "") = "" →
        "(n.d.).".data <:+: (format_apa_citation rec).data)
    ∧ (pyTrim (getDflt rec.author "") = "" → pyTrim (getDflt rec.year "") = "" →
       pyTrim (getDflt rec.title "") = "" → pyTrim (getDflt rec.journal "") = "" →
       pyTrim (getDflt rec.booktitle "") = "" → pyTrim (getDflt rec.volume "") = "" →
       pyTrim (getDflt rec.number "") = "" → pyTrim (getDflt rec.pages "") = "" →
       pyTrim (getDflt rec.doi "") = "" → pyTrim (getDflt rec.url "") = "" →
       format_apa_citation rec = "(n.d.).") := by
  have hmem : apaYearStr rec ∈ apaParts rec := by
    simp [apaParts]
  refine ⟨?_, ?_, ?_⟩
  · rw [format_apa_citation]
    exact apa_join_ne_empty (apaParts rec) rec hmem
  · intro hy
    have hyr : apaYearStr rec = "(n.d.)." := by
      unfold apaYearStr
      rw [if_neg (by simp [hy])]
    rw [hyr] at hmem
    have hmemf : "(n.d.)." ∈ (apaParts rec).filter (· ≠ "") :=
      List.mem_filter.mpr ⟨hmem, by decide⟩
    have hinf := infix_joinSep_of_mem " " ((apaParts rec).filter (· ≠ ""))
      "(n.d.)." hmemf
    rw [format_apa_citation, pyTrim_data]
    exact infix_trimList "(n.d.).".data _ (by decide) (by decide) hinf
  · intro h1 h2 h3 h4 h5 h6 h7 h8 h9 h10
    rw [format_apa_citation]
    simp only [apaParts, apaYearStr, apaOutletStr,
      apaLinkStr, h1, h2, h3, h4, h5, h6, h7, h8, h9, h10]
    decide

/-- Claim C4, witness: the record with every component absent yields the
non-empty citation `(n.d.).`. -/
theorem c4_witness :
    format_apa_citation c4rec = "(n.d.)." ∧ format_apa_citation c4rec ≠ "" := by
  have h := c4_apa_nonempty_amended c4rec
  exact ⟨h.2.2 (by decide) (by decide) (by decide) (by decide) (by decide)
    (by decide) (by decide) (by decide) (by decide) (by decide), h.1⟩

/-- An optional tagged line whose tag fails a prefix test contributes nothing
to the filtered lines. -/
theorem filter_risOptLine_nil (p : String → Bool) (tag : String)
    (o : Option String) (h : ∀ x, p (tag ++ x) = false) :
    (risOptLine tag o).filter p = [] := by
  cases o with
  | none => rfl
  | some x => simp [risOptLine, List.filter, h x]

/-- Claim C5: the RIS export contains one `AU` line per entry obtained from
splitting the author field on the separator (and no other `AU`-prefixed
lines); a title, outlet, year, volume or issue line for each such field that
is present; `SP`/`EP` lines from splitting a pages value on `"--"` and a
single `SP` line otherwise, the `SP`/`EP`-prefixed lines being exactly the
pages lines; and the last line is the terminator `ER  - `. -/
theorem c5_ris_structure (rec : Record) :
    (risLines rec).filter (fun l => startsWithStr l "AU  - ")
        = (risAuthorEntries rec).map (fun a => "AU  - " ++ a)
    ∧ (∀ t, fieldVal rec.title = some t → ("TI  - " ++ t) ∈ risLines rec)
    ∧ (∀ o, (fieldVal rec.journal <|> fieldVal rec.booktitle) = some o →
        ("T2  - " ++ o) ∈ risLines rec)
    ∧ (pyTrim (getDflt rec.year "") ≠ "" →
        ("PY  - " ++ pyTrim (getDflt rec.year "")) ∈ risLines rec)
    ∧ (∀ v, fieldVal rec.volume = some v → ("VL  - " ++ v) ∈ risLines rec)
    ∧ (∀ n, fieldVal rec.number = some n → ("IS  - " ++ n) ∈ risLines rec)
    ∧ (∀ p s e, fieldVal rec.pages = some p → pySplitOnce? p "--" = some (s, e) →
        ("SP  - " ++ pyTrim s) ∈ risLines rec ∧ ("EP  - " ++ pyTrim e) ∈ risLines rec)
    ∧ (∀ p, fieldVal rec.pages = some p → pySplitOnce? p "--" = none →
        ("SP  - " ++ pyTrim p) ∈ risLines rec)
    ∧ (risLines rec).filter
        (fun l => startsWithStr l "SP  - " || startsWithStr l "EP  - ")
        = risPagesLines rec
    ∧ (risLines rec).getLast? = some "ER  - " := by
  have fAUkeep : ((risAuthorEntries rec).map (fun a => "AU  - " ++ a)).filter
      (fun l => startsWithStr l "AU  - ")
      = (risAuthorEntries rec).map (fun a => "AU  - " ++ a) := by
    apply List.filter_eq_self.mpr
    intro x hx
    obtain ⟨a, _, rfl⟩ := List.mem_map.mp hx
    rw [startsWith_append_of_le _ _ _ (by decide)]
    decide
  have fTYau : (["TY  - " ++ risTypeOf rec]).filter
      (fun l => startsWithStr l "AU  - ") = [] := by
    simp [List.filter, startsWith_append_of_le "TY  - " (risTypeOf rec) "AU  - "
      (by decide), (by decide : startsWithStr "TY  - " "AU  - " = false)]
  have fPYau : (if pyTrim (getDflt rec.year "") ≠ ""
      then ["PY  - " ++ pyTrim (getDflt rec.year "")] else []).filter
      (fun l => startsWithStr l "AU  - ") = [] := by
    by_cases hy : pyTrim (getDflt rec.year "") ≠ ""
    · rw [if_pos hy]
      simp [List.filter, startsWith_append_of_le "PY  - " _ "AU  - " (by decide),
        (by decide : startsWithStr "PY  - " "AU  - " = false)]
    · rw [if_neg hy]
      rfl
  have fPGau : (risPagesLines rec).filter
      (fun l => startsWithStr l "AU  - ") = [] := by
    cases hp : fieldVal rec.pages with
    | none => simp [risPagesLines, hp]
    | some p =>
      cases hsp : pySplitOnce? p "--" with
      | none =>
        simp [risPagesLines, hp, hsp, List.filter,
          startsWith_append_of_le "SP  - " (pyTrim p) "AU  - " (by decide),
          (by decide : startsWithStr "SP  - " "AU  - " = false)]
      | some se =>
        simp [risPagesLines, hp, hsp, List.filter,
          startsWith_append_of_le "SP  - " (pyTrim se.1) "AU  - " (by decide),
          startsWith_append_of_le "EP  - " (pyTrim se.2) "AU  - " (by decide),
          (by decide : startsWithStr "SP  - " "AU  - " = false),
          (by decide : startsWithStr "EP  - " "AU  - " = false)]
  have fTIau := filter_risOptLine_nil (fun l => startsWithStr l "AU  - ")
    "TI  - " (fieldVal rec.title) (fun x => by
      simp only [startsWith_append_of_le "TI  - " x "AU  - " (by decide)]; decide)
  have fT2au := filter_risOptLine_nil (fun l => startsWithStr l "AU  - ")
    "T2  - " (fieldVal rec.journal <|> fieldVal rec.booktitle) (fun x => by
      simp only [startsWith_append_of_le "T2  - " x "AU  - " (by decide)]; decide)
  have fVLau := filter_risOptLine_nil (fun l => startsWithStr l "AU  - ")
    "VL  - " (fieldVal rec.volume) (fun x => by
      simp only [startsWith_append_of_le "VL  - " x "AU  - " (by decide)]; decide)
  have fISau := filter_risOptLine_nil (fun l => startsWithStr l "AU  - ")
    "IS  - " (fieldVal rec.number) (fun x => by
      simp only [startsWith_append_of_le "IS  - " x "AU  - " (by decide)]; decide)
  have fDOau := filter_risOptLine_nil (fun l => startsWithStr l "AU  - ")
    "DO  - " (fieldVal rec.doi) (fun x => by
      simp only [startsWith_append_of_le "DO  - " x "AU  - " (by decide)]; decide)
  have fURau := filter_risOptLine_nil (fun l => startsWithStr l "AU  - ")
    "UR  - " (fieldVal rec.url) (fun x => by
      simp only [startsWith_append_of_le "UR  - " x "AU  - " (by decide)]; decide)
  have fERau : (["ER  - "]).filter (fun l => startsWithStr l "AU  - ") = [] := by
    decide
  have fAUse : ((risAuthorEntries rec).map (fun a => "AU  - " ++ a)).filter
      (fun l => startsWithStr l "SP  - " || startsWithStr l "EP  - ") = [] := by
    apply List.filter_eq_nil_iff.mpr
    intro x hx
    obtain ⟨a, _, rfl⟩ := List.mem_map.mp hx
    rw [startsWith_append_of_le "AU  - " a "SP  - " (by decide),
      startsWith_append_of_le "AU  - " a "EP  - " (by decide)]
    decide
  have fTYse : (["TY  - " ++ risTypeOf rec]).filter
      (fun l => startsWithStr l "SP  - " || startsWithStr l "EP  - ") = [] := by
    simp [List.filter, startsWith_append_of_le "TY  - " (risTypeOf rec) "SP  - "
      (by decide), startsWith_append_of_le "TY  - " (risTypeOf rec) "EP  - "
      (by decide), (by decide : startsWithStr "TY  - " "SP  - " = false),
      (by decide : startsWithStr "TY  - " "EP  - " = false)]
  have fPYse : (if pyTrim (getDflt rec.year "") ≠ ""
      then ["PY  - " ++ pyTrim (getDflt rec.year "")] else []).filter
      (fun l => startsWithStr l "SP  - " || startsWithStr l "EP  - ") = [] := by
    by_cases hy : pyTrim (getDflt rec.year "") ≠ ""
    · rw [if_pos hy]
      simp [List.filter, startsWith_append_of_le "PY  - " _ "SP  - " (by decide),
        startsWith_append_of_le "PY  - " _ "EP  - " (by decide),
        (by decide : startsWithStr "PY  - " "SP  - " = false),
        (by decide : startsWithStr "PY  - " "EP  - " = false)]
    · rw [if_neg hy]
      rfl
  have fPGse : (risPagesLines rec).filter
      (fun l => startsWithStr l "SP  - " || startsWithStr l "EP  - ")
      = risPagesLines rec := by
    cases hp : fieldVal rec.pages with
    | none => simp [risPagesLines, hp]
    | some p =>
      cases hsp : pySplitOnce? p "--" with
      | none =>
        simp [risPagesLines, hp, hsp, List.filter,
          startsWith_append_of_le "SP  - " (pyTrim p) "SP  - " (by decide),
          (by decide : startsWithStr "SP  - " "SP  - " = true)]
      | some se =>
        simp [risPagesLines, hp, hsp, List.filter,
          startsWith_append_of_le "SP  - " (pyTrim se.1) "SP  - " (by decide),
          startsWith_append_of_le "EP  - " (pyTrim se.2) "SP  - " (by decide),
          startsWith_append_of_le "EP  - " (pyTrim se.2) "EP  - " (by decide),
          (by decide : startsWithStr "SP  - " "SP  - " = true),
          (by decide : startsWithStr "EP  - " "SP  - " = false),
          (by decide : startsWithStr "EP  - " "EP  - " = true)]
  have fTIse := filter_risOptLine_nil
    (fun l => startsWithStr l "SP  - " || startsWithStr l "EP  - ")
    "TI  - " (fieldVal rec.title) (fun x => by
      simp only [startsWith_append_of_le "TI  - " x "SP  - " (by decide),
        startsWith_append_of_le "TI  - " x "EP  - " (by decide)]; decide)
  have fT2se := filter_risOptLine_nil
    (fun l => startsWithStr l "SP  - " || startsWithStr l "EP  - ")
    "T2  - " (fieldVal rec.journal <|> fieldVal rec.booktitle) (fun x => by
      simp only [startsWith_append_of_le "T2  - " x "SP  - " (by decide),
        startsWith_append_of_le "T2  - " x "EP  - " (by decide)]; decide)
  have fVLse := filter_risOptLine_nil
    (fun l => startsWithStr l "SP  - " || startsWithStr l "EP  - ")
    "VL  - " (fieldVal rec.volume) (fun x => by
      simp only [startsWith_append_of_le "VL  - " x "SP  - " (by decide),
        startsWith_append_of_le "VL  - " x "EP  - " (by decide)]; decide)
  have fISse := filter_risOptLine_nil
    (fun l => startsWithStr l "SP  - " || startsWithStr l "EP  - ")
    "IS  - " (fieldVal rec.number) (fun x => by
      simp only [startsWith_append_of_le "IS  - " x "SP  - " (by decide),
        startsWith_append_of_le "IS  - " x "EP  - " (by decide)]; decide)
  have fDOse := filter_risOptLine_nil
    (fun l => startsWithStr l "SP  - " || startsWithStr l "EP  - ")
    "DO  - " (fieldVal rec.doi) (fun x => by
      simp only [startsWith_append_of_le "DO  - " x "SP  - " (by decide),
        startsWith_append_of_le "DO  - " x "EP  - " (by decide)]; decide)
  have fURse := filter_risOptLine_nil
    (fun l => startsWithStr l "SP  - " || startsWithStr l "EP  - ")
    "UR  - " (fieldVal rec.url) (fun x => by
      simp only [startsWith_append_of_le "UR  - " x "SP  - " (by decide),
        startsWith_append_of_le "UR  - " x "EP  - " (by decide)]; decide)
  have fERse : (["ER  - "]).filter
      (fun l => startsWithStr l "SP  - " || startsWithStr l "EP  - ") = [] := by
    decide
  refine ⟨?_, ?_, ?_, ?_, ?_, ?_, ?_, ?_, ?_, ?_⟩
  · simp only [risLines, List.filter_append, fAUkeep, fTYau, fTIau, fT2au,
      fPYau, fVLau, fISau, fPGau, fDOau, fURau, fERau, List.append_nil,
      List.nil_append]
  · intro t ht
    simp [risLines, risOptLine, ht, List.mem_append, List.mem_cons]
  · intro o ho
    simp [risLines, risOptLine, ho, List.mem_append, List.mem_cons]
  · intro hy
    simp [risLines, hy, List.mem_append, List.mem_cons]
  · intro v hv
    simp [risLines, risOptLine, hv, List.mem_append, List.mem_cons]
  · intro n hn
    simp [risLines, risOptLine, hn, List.mem_append, List.mem_cons]
  · intro p s e hp hsp
    constructor <;>
      simp [risLines, risPagesLines, hp, hsp, List.mem_append, List.mem_cons]
  · intro p hp hsp
    simp [risLines, risPagesLines, hp, hsp, List.mem_append, List.mem_cons]
  · simp only [risLines, List.filter_append, fAUse, fTYse, fTIse, fT2se,
      fPYse, fVLse, fISse, fPGse, fDOse, fURse, fERse, List.append_nil,
      List.nil_append]
  · simp only [risLines]
    exact List.getLast?_concat _

/-- Claim C5, witness: the sample proceedings record with two authors and a
page range: its AU lines are exactly the two author entries, the title,
outlet and year lines are present, `SP  - 10` / `EP  - 20` are present, and
the export ends with the terminator. -/
theorem c5_witness :
    (risLines c5rec).filter (fun l => startsWithStr l "AU  - ")
        = ["AU  - Smith, John", "AU  - Doe, Jane"]
    ∧ ("TI  - T") ∈ risLines c5rec
    ∧ ("T2  - Proc") ∈ risLines c5rec
    ∧ ("PY  - 2020") ∈ risLines c5rec
    ∧ ("SP  - 10") ∈ risLines c5rec ∧ ("EP  - 20") ∈ risLines c5rec
    ∧ (risLines c5rec).getLast? = some "ER  - " := by
  have h := c5_ris_structure c5rec
  refine ⟨?_, ?_, ?_, ?_, ?_, ?_, h.2.2.2.2.2.2.2.2.2⟩
  · rw [h.1]
    decide
  · exact h.2.1 "T" (by decide)
  · exact h.2.2.1 "Proc" (by decide)
  · have := h.2.2.2.1 (by decide)
    simpa using this
  · exact ((h.2.2.2.2.2.2.1 "10--20" "10" "20" (by decide) (by decide)).1)
  · exact ((h.2.2.2.2.2.2.1 "10--20" "10" "20" (by decide) (by decide)).2)

end UpdatePapers
